import Mathlib

/-!
Shallow embedding of the lsr-tracker event eligibility, submission-window,
ranking and monthly-aggregation logic (src/routes/index.js), together with
theorems checking the specification's claims about it.

Conventions of the embedding:
* SQL `DATE` columns hold `YYYY-MM-DD` strings; the store compares them with
  binary text collation, which on well-formed dates coincides with the
  lexicographic order on the (year, month, day) triple.  `PDate` is that
  triple and `PDate.ble` / `PDate.blt` are the comparisons.
* A JavaScript `Date` value is an instant; the code compares instants
  numerically (epoch milliseconds).  `PhInstant` decomposes an instant into
  its calendar date and milliseconds past midnight; numeric comparison of
  instants is the lexicographic order on that decomposition.
  `new Date(s)` for a `YYYY-MM-DD` string `s` is midnight of that date.
* `DECIMAL` / `REAL` km, hour and pace values are modelled as `ℚ`.
* The relational store is a `Store` of row lists; `nextId` models the
  monotone id sequence (`lastID` of an insert).
* Route handlers become functions `Store → inputs → result × Store`.
  Numeric route params arrive as `Int` (the result of `Number(...)` on the
  path segment when it is integral), body dates as `Option PDate`
  (`none` = missing), and decimal body fields as `Option ℚ`
  (`none` = a value whose `Number(...)` is `NaN`, i.e. missing/non-numeric).
-/

set_option maxHeartbeats 1000000

namespace LsrTracker

/-- A calendar date, the (year, month, day) reading of a `YYYY-MM-DD` string. -/
structure PDate where
  y : Nat
  m : Nat
  d : Nat
deriving DecidableEq

/-- Lexicographic `≤` on dates: the store's binary collation of `YYYY-MM-DD`. -/
def PDate.ble (a b : PDate) : Bool :=
  decide (a.y < b.y) ||
    (decide (a.y = b.y) &&
      (decide (a.m < b.m) || (decide (a.m = b.m) && decide (a.d ≤ b.d))))

/-- Lexicographic `<` on dates. -/
def PDate.blt (a b : PDate) : Bool :=
  decide (a.y < b.y) ||
    (decide (a.y = b.y) &&
      (decide (a.m < b.m) || (decide (a.m = b.m) && decide (a.d < b.d))))

/-- An instant of PH wall-clock time (`new Date(now.getTime() + 8*60*60*1000)`),
decomposed as its calendar date plus milliseconds past midnight. -/
structure PhInstant where
  date : PDate
  msOfDay : Nat
deriving DecidableEq

/-- `phTime < new Date(d)`: numeric comparison of the instant against midnight
of `d`.  Since `msOfDay ≥ 0`, the lexicographic comparison against `(d, 0)`
reduces to `date < d`. -/
def PhInstant.ltMidnight (t : PhInstant) (d : PDate) : Bool :=
  t.date.blt d

/-- `phTime > new Date(d)`: the instant is strictly after midnight of `d`. -/
def PhInstant.gtMidnight (t : PhInstant) (d : PDate) : Bool :=
  d.blt t.date || (decide (d = t.date) && decide (0 < t.msOfDay))

/-- A row of `users`. -/
structure User where
  id : Nat
  email : String
  gender : String
deriving DecidableEq

/-- A row of `events`. -/
structure Event where
  id : Nat
  name : String
  start_date : PDate
  end_date : PDate
  category : String
  gender_restriction : String
  km_goal : ℚ
  is_ended : Bool
deriving DecidableEq

/-- A row of `event_participants` (subject to `UNIQUE(event_id, user_id)`). -/
structure Participant where
  id : Nat
  event_id : Nat
  user_id : Nat
deriving DecidableEq

/-- A row of `event_closed_dates` (subject to `UNIQUE(event_id, closed_date)`). -/
structure ClosedDate where
  id : Nat
  event_id : Nat
  closed_date : PDate
  created_by : Nat
deriving DecidableEq

/-- A row of `entries`. -/
structure Entry where
  id : Nat
  user_id : Nat
  entry_date : PDate
  km_run : ℚ
  hours : ℚ
  pace : Option ℚ
deriving DecidableEq

/-- A row of `uploads` (only the fields this core touches). -/
structure Upload where
  id : Nat
  user_id : Nat
  entry_id : Option Nat
deriving DecidableEq

/-- The relational store of record. -/
structure Store where
  users : List User
  events : List Event
  participants : List Participant
  closedDates : List ClosedDate
  entries : List Entry
  uploads : List Upload
  nextId : Nat
deriving DecidableEq

/-- Outcome of `POST /api/events/:id/join`: `res.json({ok:true, participantId})`
or `res.status(st).json({error: msg})`. -/
inductive JoinRes where
  | ok (participantId : Nat)
  | err (status : Nat) (msg : String)
deriving DecidableEq

/-- The HTTP status of a join outcome (`none` on success). -/
def JoinRes.status : JoinRes → Option Nat
  | .ok _ => none
  | .err st _ => some st

/-- Store-level failure of an `INSERT` hitting a unique constraint. -/
inductive InsertErr where
  | uniqueViolation
deriving DecidableEq

/-- `INSERT INTO event_participants (event_id, user_id) VALUES (?, ?)` against
the store: the `UNIQUE(event_id, user_id)` constraint rejects a duplicate pair,
otherwise the row is appended and its id returned. -/
def insertParticipant (s : Store) (eid uid : Nat) : Except InsertErr (Nat × Store) :=
  if s.participants.any (fun p => p.event_id == eid && p.user_id == uid) then
    .error .uniqueViolation
  else
    .ok (s.nextId,
      { s with participants := s.participants ++ [⟨s.nextId, eid, uid⟩],
               nextId := s.nextId + 1 })

/-- `POST /api/events/:id/join`, with the pre-checks reading `sPre` and the
final `INSERT` executing against `sIns`.  The sequential handler is the
diagonal `sPre = sIns`; a lost pre-check race is `sIns` already holding the
row that `sPre` did not. -/
def tryJoinAt (sPre sIns : Store) (eventIdRaw : Int) (userId : Nat)
    (now : PhInstant) : JoinRes × Store :=
  if eventIdRaw ≤ 0 then (.err 400 "Invalid event ID", sIns)
  else
    let eventId := eventIdRaw.toNat
    match sPre.events.find? (fun e => e.id == eventId) with
    | none => (.err 404 "Event not found", sIns)
    | some event =>
      if now.ltMidnight event.start_date then
        (.err 400 "Event has not started yet", sIns)
      else if now.gtMidnight event.end_date then
        (.err 400 "Event has already ended", sIns)
      else
        match sPre.participants.find?
            (fun p => p.event_id == eventId && p.user_id == userId) with
        | some _ => (.err 400 "You have already joined this event", sIns)
        | none =>
          match sPre.users.find? (fun u => u.id == userId) with
          | none => (.err 404 "User not found", sIns)
          | some user =>
            if event.gender_restriction != "both" &&
                event.gender_restriction != user.gender then
              (.err 403 ("This event is exclusive to " ++ event.gender_restriction ++
                " participants only. You are " ++ user.gender ++ "."), sIns)
            else
              match insertParticipant sIns eventId userId with
              | .ok (pid, s') => (.ok pid, s')
              | .error _ => (.err 500 "Failed to join event", sIns)

/-- The sequential join handler (pre-check and insert see the same store). -/
def tryJoin (s : Store) (eventIdRaw : Int) (userId : Nat) (now : PhInstant) :
    JoinRes × Store :=
  tryJoinAt s s eventIdRaw userId now

/-- Modelled from the spec (refinement reading of C1): the join window with the
event's stored dates compared to `now` as calendar dates, inclusive on both
ends. -/
def calendarWindowSpec (ev : Event) (now : PhInstant) : Bool :=
  ev.start_date.ble now.date && now.date.ble ev.end_date

/-- First day of the month after `(y, m)` with 1-based `m`, as computed by
`new Date(y, m, 1)` (JS months are 0-based, so index `m` is the next month,
rolling December over to January). -/
def nextMonthStart (y m : Nat) : PDate :=
  if m == 12 then ⟨y + 1, 1, 1⟩ else ⟨y, m + 1, 1⟩

/-- The half-open month window `[YYYY-MM-01, first of next month)`. -/
def monthWindow (y m : Nat) : PDate × PDate :=
  (⟨y, m, 1⟩, nextMonthStart y m)

/-- The month-window condition `entry_date >= start AND entry_date < end`
shared by `GET /api/entries`, `GET /api/admin/entries` and
`GET /api/admin/top10`. -/
def inMonthWindow (y m : Nat) (d : PDate) : Bool :=
  (monthWindow y m).1.ble d && d.blt (monthWindow y m).2

/-- `GET /api/entries`: `WHERE e.user_id = ? AND e.entry_date >= ? AND
e.entry_date < ?` over the month window. -/
def listEntries (s : Store) (uid : Nat) (y m : Nat) : List Entry :=
  s.entries.filter (fun e => e.user_id == uid && inMonthWindow y m e.entry_date)

/-- The entries of one user that the top-10 month aggregation sums over
(same half-open month window, inner-join semantics). -/
def monthQualifying (s : Store) (uid : Nat) (y m : Nat) : List Entry :=
  s.entries.filter (fun e => e.user_id == uid && inMonthWindow y m e.entry_date)

/-- `ROUND(x, 2)`. -/
def round2 (q : ℚ) : ℚ := (round (q * 100) : ℚ) / 100

/-- `ORDER BY total_km DESC` on top-10 rows. -/
def kmDescLe (a b : Nat × String × ℚ) : Prop := b.2.2 ≤ a.2.2

instance : DecidableRel kmDescLe :=
  fun a b => inferInstanceAs (Decidable (b.2.2 ≤ a.2.2))

/-- `GET /api/admin/top10`: per-user month totals (users with no windowed
entries are absent, inner-join), rounded, sorted descending, first 10. -/
def top10 (s : Store) (y m : Nat) : List (Nat × String × ℚ) :=
  ((s.users.filterMap (fun u =>
      let es := monthQualifying s u.id y m
      if es.isEmpty then none
      else some (u.id, u.email, round2 ((es.map Entry.km_run).sum)))).insertionSort
        kmDescLe).take 10

/-- The event-window entry join `e.user_id = u.id AND e.entry_date >= start
AND e.entry_date <= end` (inclusive on both ends) used by the event ranking
queries. -/
def eventQualifying (s : Store) (ev : Event) (uid : Nat) : List Entry :=
  s.entries.filter (fun e =>
    e.user_id == uid && ev.start_date.ble e.entry_date &&
      e.entry_date.ble ev.end_date)

/-- One row of the `GET /api/events/:id/ranking` result. -/
structure RankRow where
  id : Nat
  email : String
  total_km : ℚ
  entry_count : Nat
deriving DecidableEq

/-- Code-point lexicographic `≤` on character lists: the store's binary text
collation behind `ORDER BY u.email ASC`. -/
def strLeB : List Char → List Char → Bool
  | [], _ => true
  | _ :: _, [] => false
  | c :: cs, d :: ds =>
    decide (c.toNat < d.toNat) || (decide (c.toNat = d.toNat) && strLeB cs ds)

/-- Binary collation on strings. -/
def emailLe (a b : String) : Bool := strLeB a.data b.data

/-- `ORDER BY total_km DESC, u.email ASC` as a total order on ranking rows. -/
def rankRowLe (a b : RankRow) : Prop :=
  b.total_km < a.total_km ∨
    (a.total_km = b.total_km ∧ emailLe a.email b.email = true)

instance : DecidableRel rankRowLe :=
  fun a b => inferInstanceAs (Decidable
    (b.total_km < a.total_km ∨
      (a.total_km = b.total_km ∧ emailLe a.email b.email = true)))

/-- The unsorted grouped rows of `GET /api/events/:id/ranking`: participants
of the event joined to their user row, left-joined to qualifying entries,
with `COALESCE(SUM(e.km_run), 0)` and `COUNT(e.id)`. -/
def rankRows (s : Store) (ev : Event) : List RankRow :=
  (s.participants.filter (fun p => p.event_id == ev.id)).filterMap (fun p =>
    (s.users.find? (fun u => u.id == p.user_id)).map (fun u =>
      { id := u.id, email := u.email,
        total_km := ((eventQualifying s ev u.id).map Entry.km_run).sum,
        entry_count := (eventQualifying s ev u.id).length }))

/-- `GET /api/events/:id/ranking` aggregation, ordered by
`total_km DESC, u.email ASC`. -/
def computeRanking (s : Store) (ev : Event) : List RankRow :=
  (rankRows s ev).insertionSort rankRowLe

/-- One row of the per-event standing query inside `GET /api/events`. -/
structure StandRow where
  id : Nat
  total_km : ℚ
  total_hours : ℚ
  total_days : Nat
deriving DecidableEq

/-- `ORDER BY total_km DESC, u.id ASC` on standing rows. -/
def standRowLe (a b : StandRow) : Prop :=
  b.total_km < a.total_km ∨ (a.total_km = b.total_km ∧ a.id ≤ b.id)

instance : DecidableRel standRowLe :=
  fun a b => inferInstanceAs (Decidable
    (b.total_km < a.total_km ∨ (a.total_km = b.total_km ∧ a.id ≤ b.id)))

/-- The unsorted grouped rows of the per-event standing query
(`SUM(km_run)`, `SUM(hours)`, `COUNT(DISTINCT entry_date)`). -/
def standRows (s : Store) (ev : Event) : List StandRow :=
  (s.participants.filter (fun p => p.event_id == ev.id)).filterMap (fun p =>
    (s.users.find? (fun u => u.id == p.user_id)).map (fun u =>
      { id := u.id,
        total_km := ((eventQualifying s ev u.id).map Entry.km_run).sum,
        total_hours := ((eventQualifying s ev u.id).map Entry.hours).sum,
        total_days := ((eventQualifying s ev u.id).map Entry.entry_date).dedup.length }))

/-- The per-event standing ranking inside `GET /api/events`, ordered by
`total_km DESC, u.id ASC`. -/
def computeStandingRanking (s : Store) (ev : Event) : List StandRow :=
  (standRows s ev).insertionSort standRowLe

/-- `ranking.findIndex(r => r.id === userId) + 1`, reported as the user's
rank when found (`userRank > 0 ? userRank : null`). -/
def userRankOf (ranking : List StandRow) (uid : Nat) : Option Nat :=
  let i := ranking.findIdx (fun r => r.id == uid)
  if i < ranking.length then some (i + 1) else none

/-- A store-level query failure. -/
inductive DbErr where
  | fail
deriving DecidableEq

/-- One item of the `GET /api/events` response.  The `user_total_*` fields are
`none` when the corresponding JSON keys are absent from the item. -/
structure ListItem where
  event : Event
  has_joined : Bool
  user_rank : Option Nat
  total_participants : Nat
  user_total_km : Option ℚ
  user_total_hours : Option ℚ
  user_total_days : Option Nat
deriving DecidableEq

/-- The per-event promise body of `GET /api/events` for a joined event, as a
function of the outcome of the standing-ranking query: on a query error the
promise resolves with `user_rank: null, total_participants: 0` and zeroed
totals; on success it computes rank, participant count and the user's totals. -/
def joinedItem (ev : Event) (uid : Nat) (rankingRes : Except DbErr (List StandRow)) :
    ListItem :=
  match rankingRes with
  | .error _ =>
    { event := ev, has_joined := true, user_rank := none, total_participants := 0,
      user_total_km := some 0, user_total_hours := some 0, user_total_days := some 0 }
  | .ok ranking =>
    let stats := ranking.find? (fun r => r.id == uid)
    { event := ev, has_joined := true,
      user_rank := userRankOf ranking uid,
      total_participants := ranking.length,
      user_total_km := some (match stats with | some st => st.total_km | none => 0),
      user_total_hours := some (match stats with | some st => st.total_hours | none => 0),
      user_total_days := some (match stats with | some st => st.total_days | none => 0) }

/-- The `GET /api/events` item for an event the user has not joined:
`{ ...event, user_rank: null, total_participants: 0 }`, computed without any
ranking query. -/
def notJoinedItem (ev : Event) : ListItem :=
  { event := ev, has_joined := false, user_rank := none, total_participants := 0,
    user_total_km := none, user_total_hours := none, user_total_days := none }

/-- `CASE WHEN ep.id IS NOT NULL THEN 1 ELSE 0 END` of the left join against
the requesting user's participant row. -/
def hasJoinedB (s : Store) (ev : Event) (uid : Nat) : Bool :=
  s.participants.any (fun p => p.event_id == ev.id && p.user_id == uid)

/-- `GET /api/events` with every per-event store query succeeding: events with
`end_date >= today`, each mapped to its item. -/
def listEvents (s : Store) (uid : Nat) (today : PDate) : List ListItem :=
  (s.events.filter (fun e => today.ble e.end_date)).map (fun ev =>
    if hasJoinedB s ev uid then joinedItem ev uid (.ok (computeStandingRanking s ev))
    else notJoinedItem ev)

/-- A generic route outcome: a success body or `res.status(st).json({error})`. -/
inductive RouteRes (α : Type) where
  | ok (body : α)
  | err (status : Nat) (msg : String)
deriving DecidableEq

/-- `GET /api/events/:id/ranking` control flow as a function of the two query
outcomes: a failing event lookup is a 500, a missing event a 404, and a
failing ranking query a 500 — never an empty success. -/
def rankingRoute (eventIdRaw : Int) (eventRes : Except DbErr (Option Event))
    (rowsRes : Except DbErr (List RankRow)) : RouteRes (Event × List RankRow × ℚ) :=
  if eventIdRaw ≤ 0 then .err 400 "Invalid event ID"
  else
    match eventRes with
    | .error _ => .err 500 "Database error"
    | .ok none => .err 404 "Event not found"
    | .ok (some ev) =>
      match rowsRes with
      | .error _ => .err 500 "Failed to fetch ranking"
      | .ok rows => .ok (ev, rows, ev.km_goal)

/-- `GET /api/events` control flow: if the outer events query succeeds the
response is a 200 whose items embed each per-event ranking outcome through
`joinedItem` / `notJoinedItem` (the per-event promises never reject). -/
def eventsRoute (uid : Nat) (eventsRes : Except DbErr (List (Event × Bool)))
    (rank : Event → Except DbErr (List StandRow)) : RouteRes (List ListItem) :=
  match eventsRes with
  | .error _ => .err 500 "Failed to fetch events"
  | .ok evs =>
    .ok (evs.map (fun eb =>
      if eb.2 then joinedItem eb.1 uid (rank eb.1) else notJoinedItem eb.1))

/-- `Number(x) || 0`: a `NaN` (missing or non-numeric input, modelled `none`)
and `0` both give `0`; every other numeric value — including a negative one —
passes through unchanged. -/
def numOrZero : Option ℚ → ℚ
  | none => 0
  | some q => q

/-- Outcome of an entry-creating route: `{ok:true, entryId}` or an error. -/
inductive SubmitRes where
  | ok (entryId : Nat)
  | err (status : Nat) (msg : String)
deriving DecidableEq

/-- The shared entry + upload persistence of `POST /api/entries` and
`POST /api/events/:id/entry`: insert the entry with coerced numerics, then
link the upload row to it. -/
def insertEntryWithUpload (s : Store) (uid : Nat) (d : PDate)
    (km hours pace : Option ℚ) : SubmitRes × Store :=
  let entry : Entry :=
    { id := s.nextId, user_id := uid, entry_date := d,
      km_run := numOrZero km, hours := numOrZero hours, pace := pace }
  let s1 := { s with entries := s.entries ++ [entry], nextId := s.nextId + 1 }
  let upload : Upload := { id := s1.nextId, user_id := uid, entry_id := some entry.id }
  (.ok entry.id, { s1 with uploads := s1.uploads ++ [upload], nextId := s1.nextId + 1 })

/-- `POST /api/entries` (generic submission): missing date / missing file
checks, then the shared persistence. -/
def postEntry (s : Store) (uid : Nat) (date : Option PDate) (hasFile : Bool)
    (km hours pace : Option ℚ) : SubmitRes × Store :=
  match date with
  | none => (.err 400 "Missing date", s)
  | some d =>
    if !hasFile then (.err 400 "Screenshot file is required", s)
    else insertEntryWithUpload s uid d km hours pace

/-- `POST /api/events/:id/entry` (event submission): id / date / file checks,
then the participant, event-period and closed-date checks against the store,
then the shared persistence. -/
def eventEntrySubmit (s : Store) (eventIdRaw : Int) (uid : Nat)
    (date : Option PDate) (hasFile : Bool) (km hours pace : Option ℚ) :
    SubmitRes × Store :=
  if eventIdRaw ≤ 0 then (.err 400 "Invalid event ID", s)
  else
    let eventId := eventIdRaw.toNat
    match date with
    | none => (.err 400 "Missing date", s)
    | some d =>
      if !hasFile then (.err 400 "Screenshot file is required", s)
      else
        match s.participants.find?
            (fun p => p.event_id == eventId && p.user_id == uid) with
        | none => (.err 403 "You are not a participant in this event", s)
        | some _ =>
          match s.events.find? (fun e => e.id == eventId) with
          | none => (.err 404 "Event not found", s)
          | some event =>
            if d.blt event.start_date || event.end_date.blt d then
              (.err 400 "Entry date must be within event period", s)
            else
              match s.closedDates.find?
                  (fun c => c.event_id == eventId && c.closed_date == d) with
              | some _ => (.err 400 "Entry submission is closed for this date", s)
              | none => insertEntryWithUpload s uid d km hours pace

/-- `PUT /api/entries/:id` (owner edit): ownership check, then update with the
same `Number(x) || 0` coercion. -/
def putEntry (s : Store) (uid : Nat) (entryIdRaw : Int) (date : PDate)
    (km hours pace : Option ℚ) : RouteRes Unit × Store :=
  if entryIdRaw ≤ 0 then (.err 400 "Invalid entry ID", s)
  else
    let entryId := entryIdRaw.toNat
    match s.entries.find? (fun e => e.id == entryId && e.user_id == uid) with
    | none => (.err 404 "Entry not found or not authorized", s)
    | some _ =>
      (.ok (),
        { s with entries := s.entries.map (fun e =>
            if e.id == entryId && e.user_id == uid then
              { e with entry_date := date, km_run := numOrZero km,
                       hours := numOrZero hours, pace := pace }
            else e) })

/-- `PUT /api/admin/entries/:id` (admin edit of any entry): same coercion
without the ownership restriction. -/
def adminPutEntry (s : Store) (entryIdRaw : Int) (date : PDate)
    (km hours pace : Option ℚ) : RouteRes Unit × Store :=
  if entryIdRaw ≤ 0 then (.err 400 "Invalid entry ID", s)
  else
    let entryId := entryIdRaw.toNat
    match s.entries.find? (fun e => e.id == entryId) with
    | none => (.err 404 "Entry not found", s)
    | some _ =>
      (.ok (),
        { s with entries := s.entries.map (fun e =>
            if e.id == entryId then
              { e with entry_date := date, km_run := numOrZero km,
                       hours := numOrZero hours, pace := pace }
            else e) })

/-- `POST /api/admin/events/:id/close-date`: validations, then the insert whose
`UNIQUE(event_id, closed_date)` violation is reported as the distinguishable
400 duplicate error. -/
def closeDate (s : Store) (eventIdRaw : Int) (adminId : Nat) (date : Option PDate) :
    RouteRes Nat × Store :=
  if eventIdRaw ≤ 0 then (.err 400 "Invalid event ID", s)
  else
    let eventId := eventIdRaw.toNat
    match date with
    | none => (.err 400 "Missing date", s)
    | some d =>
      match s.events.find? (fun e => e.id == eventId) with
      | none => (.err 404 "Event not found", s)
      | some event =>
        if d.blt event.start_date || event.end_date.blt d then
          (.err 400 "Date must be within event period", s)
        else if s.closedDates.any
            (fun c => c.event_id == eventId && c.closed_date == d) then
          (.err 400 "This date is already closed for submissions", s)
        else
          (.ok s.nextId,
            { s with closedDates := s.closedDates ++ [⟨s.nextId, eventId, d, adminId⟩],
                     nextId := s.nextId + 1 })

/-- `DELETE /api/admin/events/:id/close-date`: delete the matching rows; a
no-op delete (`this.changes === 0`) is a 404. -/
def openDate (s : Store) (eventIdRaw : Int) (date : Option PDate) :
    RouteRes Unit × Store :=
  if eventIdRaw ≤ 0 then (.err 400 "Invalid event ID", s)
  else
    let eventId := eventIdRaw.toNat
    match date with
    | none => (.err 400 "Missing date", s)
    | some d =>
      let remaining := s.closedDates.filter
        (fun c => !(c.event_id == eventId && c.closed_date == d))
      if remaining.length == s.closedDates.length then
        (.err 404 "Closed date not found", s)
      else (.ok (), { s with closedDates := remaining })

/-! Basic facts about the date comparisons. -/

theorem pdBle_iff (a b : PDate) : a.ble b = true ↔
    (a.y < b.y ∨ (a.y = b.y ∧ (a.m < b.m ∨ (a.m = b.m ∧ a.d ≤ b.d)))) := by
  simp [PDate.ble]

theorem pdBlt_iff (a b : PDate) : a.blt b = true ↔
    (a.y < b.y ∨ (a.y = b.y ∧ (a.m < b.m ∨ (a.m = b.m ∧ a.d < b.d)))) := by
  simp [PDate.blt]

theorem pdBle_refl (a : PDate) : a.ble a = true := by
  simp [PDate.ble]

theorem pdBlt_irrefl (a : PDate) : a.blt a = false := by
  simp [PDate.blt]

theorem pdBlt_eq_false_iff (a b : PDate) : a.blt b = false ↔ b.ble a = true := by
  rw [Bool.eq_false_iff, Ne, pdBlt_iff, pdBle_iff]
  omega

/-! Concrete rows used by the counterexamples and witnesses. -/

/-- A June 2024 event open to both genders. -/
def exEvent : Event :=
  { id := 1, name := "June Run", start_date := ⟨2024, 6, 1⟩, end_date := ⟨2024, 6, 30⟩,
    category := "advanced", gender_restriction := "both", km_goal := 50,
    is_ended := false }

def exUserA : User := { id := 7, email := "a@x.com", gender := "female" }

def exUserB : User := { id := 8, email := "b@x.com", gender := "male" }

def exStore : Store :=
  { users := [exUserA, exUserB], events := [exEvent], participants := [],
    closedDates := [], entries := [], uploads := [], nextId := 10 }

/-- Noon PH time on the event's end date. -/
def endDayNoon : PhInstant := ⟨⟨2024, 6, 30⟩, 43200000⟩

/-- Midnight PH time in the middle of the event. -/
def midJune : PhInstant := ⟨⟨2024, 6, 15⟩, 0⟩

/-- C1 counterexample: at noon PH time on the event's end date the claim's
calendar-date window `start_date ≤ now ≤ end_date` is satisfied, the user has
no participant row and the event is open to both genders, yet the join is
rejected with "Event has already ended" — the handler compares the full
timestamp against midnight of `end_date`, not calendar dates. -/
theorem c1_join_counterexample :
    calendarWindowSpec exEvent endDayNoon = true ∧
    exStore.participants = [] ∧
    exEvent.gender_restriction = "both" ∧
    (tryJoin exStore 1 7 endDayNoon).1 = .err 400 "Event has already ended" := by
  decide

/-- A female-only June 2024 event. -/
def exEventF : Event :=
  { id := 2, name := "Ladies Run", start_date := ⟨2024, 6, 1⟩, end_date := ⟨2024, 6, 30⟩,
    category := "intermediate", gender_restriction := "female", km_goal := 50,
    is_ended := false }

def exStoreF : Store :=
  { users := [exUserB], events := [exEventF], participants := [], closedDates := [],
    entries := [], uploads := [], nextId := 20 }

/-- C6 counterexample: a join failing only the gender check is answered with
HTTP 403, not the claimed 400 (the message does name the restriction and the
user's gender). -/
theorem c6_gender_status_counterexample :
    (tryJoin exStoreF 2 8 midJune).1 =
      .err 403 "This event is exclusive to female participants only. You are male." ∧
    ((tryJoin exStoreF 2 8 midJune).1).status = some 403 ∧ (403 : Nat) ≠ 400 := by
  decide

/-- The store after a concurrent join by the same user has committed. -/
def exStoreJoined : Store :=
  { exStore with participants := [⟨5, 1, 7⟩], nextId := 11 }

/-- C5 counterexample: when the pre-check read a store without the row but a
concurrent join commits before the `INSERT`, the unique-constraint violation
is answered with the generic 500 "Failed to join event" — not a
distinguishable duplicate error such as the 400 already-joined response. -/
theorem c5_race_counterexample :
    (tryJoinAt exStore exStoreJoined 1 7 midJune).1 =
      .err 500 "Failed to join event" ∧
    (tryJoinAt exStore exStoreJoined 1 7 midJune).1 ≠
      .err 400 "You have already joined this event" := by
  decide

/-- C2 counterexample: with the outer events query succeeding and the
per-event standing-ranking query failing, `GET /api/events` still answers 200
and presents the joined event with `user_rank: null, total_participants: 0`
and zeroed totals, as if the aggregation had succeeded. -/
theorem c2_swallowed_error_counterexample :
    eventsRoute 7 (.ok [(exEvent, true)]) (fun _ => .error .fail) =
      .ok [{ event := exEvent, has_joined := true, user_rank := none,
             total_participants := 0, user_total_km := some 0,
             user_total_hours := some 0, user_total_days := some 0 }] := by
  decide

/-- C9 counterexample: `POST /api/entries` with numeric inputs `km = -5`,
`hours = -2` stores the entry with `km_run = -5 < 0` and `hours = -2 < 0`:
the `Number(x) || 0` coercion passes negative values through. -/
theorem c9_negative_entry_counterexample :
    ((postEntry exStore 7 (some ⟨2024, 6, 10⟩) true (some (-5)) (some (-2))
        none).2.entries.map Entry.km_run) = [-5] ∧
    ((postEntry exStore 7 (some ⟨2024, 6, 10⟩) true (some (-5)) (some (-2))
        none).2.entries.map Entry.hours) = [-2] ∧
    ¬ (0 ≤ (-5 : ℚ)) ∧ ¬ (0 ≤ (-2 : ℚ)) := by
  decide

/-- C2 (amended): the dedicated ranking endpoint reports store failures —
a failing event lookup as 500 "Database error" and a failing ranking query as
500 "Failed to fetch ranking", never an empty success — while the events
listing converts a failing per-event standing query into a success item with
`user_rank: null, total_participants: 0` and zeroed totals. -/
theorem c2_store_error_amended :
    (∀ (eid : Int) (ev : Event) (e : DbErr), 0 < eid →
      rankingRoute eid (.ok (some ev)) (.error e) =
        .err 500 "Failed to fetch ranking") ∧
    (∀ (eid : Int) (e : DbErr) (rows : List RankRow), 0 < eid →
      rankingRoute eid (.error e) (.ok rows) = .err 500 "Database error") ∧
    (∀ (ev : Event) (uid : Nat) (e : DbErr),
      joinedItem ev uid (.error e) =
        { event := ev, has_joined := true, user_rank := none,
          total_participants := 0, user_total_km := some 0,
          user_total_hours := some 0, user_total_days := some 0 }) := by
  refine ⟨fun eid ev e h => ?_, fun eid e rows h => ?_, fun ev uid e => rfl⟩ <;>
    simp [rankingRoute, show ¬(eid ≤ 0) by omega]

/-- C2 witness: the amended behavior at concrete inputs. -/
theorem c2_store_error_amended_witness :
    rankingRoute 1 (.ok (some exEvent)) (.error .fail) =
      .err 500 "Failed to fetch ranking" ∧
    joinedItem exEvent 7 (.error .fail) =
      { event := exEvent, has_joined := true, user_rank := none,
        total_participants := 0, user_total_km := some 0,
        user_total_hours := some 0, user_total_days := some 0 } :=
  ⟨c2_store_error_amended.1 1 exEvent .fail (by decide),
   c2_store_error_amended.2.2 exEvent 7 .fail⟩

/-- C6 (amended): whenever a join attempt fails only the gender check, the
operation responds with HTTP status 403 (not 400) and an error message that
names both the event's restriction and the user's own gender. -/
theorem c6_gender_check_amended (s : Store) (eid uid : Nat) (now : PhInstant)
    (ev : Event) (u : User)
    (hpos : 0 < eid)
    (hev : s.events.find? (fun e => e.id == eid) = some ev)
    (hu : s.users.find? (fun w => w.id == uid) = some u)
    (hstart : now.ltMidnight ev.start_date = false)
    (hend : now.gtMidnight ev.end_date = false)
    (hnp : s.participants.find? (fun p => p.event_id == eid && p.user_id == uid) = none)
    (hr : ev.gender_restriction ≠ "both") (hg : ev.gender_restriction ≠ u.gender) :
    (tryJoin s eid uid now).1 =
      .err 403 ("This event is exclusive to " ++ ev.gender_restriction ++
        " participants only. You are " ++ u.gender ++ ".") := by
  have h0 : ¬((eid : Int) ≤ 0) := by omega
  simp [tryJoin, tryJoinAt, h0, hev, hu, hnp, hstart, hend, hr, hg]

/-- C6 witness: the amended gender response at a concrete store. -/
theorem c6_gender_check_amended_witness :
    (tryJoin exStoreF 2 8 midJune).1 =
      .err 403 ("This event is exclusive to " ++ exEventF.gender_restriction ++
        " participants only. You are " ++ exUserB.gender ++ ".") :=
  c6_gender_check_amended exStoreF 2 8 midJune exEventF exUserB (by decide)
    (by decide) (by decide) (by decide) (by decide) (by decide) (by decide)
    (by decide)

theorem any_eq_false_of_find?_eq_none {α : Type} {p : α → Bool} {l : List α}
    (h : l.find? p = none) : l.any p = false := by
  rw [Bool.eq_false_iff]
  intro hany
  rcases List.any_eq_true.mp hany with ⟨a, ha, hpa⟩
  exact absurd hpa (by simpa using List.find?_eq_none.mp h a ha)

/-- C1 (amended): with the event and user rows present, the join succeeds iff
`start_date ≤ now`'s PH calendar date, `now` is not strictly after midnight of
`end_date` (so on the end date itself only the midnight instant passes — the
window is not a calendar-date comparison at the upper end), the user holds no
participant row, and the gender restriction is `both` or matches; before the
window the reported reason is "Event has not started yet" and after it
"Event has already ended", two distinct reasons. -/
theorem c1_join_window_amended (s : Store) (eid uid : Nat) (now : PhInstant)
    (ev : Event) (u : User)
    (hpos : 0 < eid)
    (hev : s.events.find? (fun e => e.id == eid) = some ev)
    (hu : s.users.find? (fun w => w.id == uid) = some u) :
    ((∃ pid, (tryJoin s eid uid now).1 = .ok pid) ↔
      (ev.start_date.ble now.date = true ∧
        now.gtMidnight ev.end_date = false ∧
        s.participants.find?
          (fun p => p.event_id == eid && p.user_id == uid) = none ∧
        (ev.gender_restriction = "both" ∨ ev.gender_restriction = u.gender))) ∧
    (now.ltMidnight ev.start_date = true →
      (tryJoin s eid uid now).1 = .err 400 "Event has not started yet") ∧
    (now.ltMidnight ev.start_date = false → now.gtMidnight ev.end_date = true →
      (tryJoin s eid uid now).1 = .err 400 "Event has already ended") := by
  have h0 : ¬((eid : Int) ≤ 0) := by omega
  have hlt_iff : now.ltMidnight ev.start_date = false ↔
      ev.start_date.ble now.date = true :=
    pdBlt_eq_false_iff now.date ev.start_date
  refine ⟨?_, fun hlt => by simp [tryJoin, tryJoinAt, h0, hev, hlt],
    fun hlt hgt => by simp [tryJoin, tryJoinAt, h0, hev, hlt, hgt]⟩
  cases hlt : now.ltMidnight ev.start_date with
  | true =>
    constructor
    · rintro ⟨pid, hok⟩
      simp [tryJoin, tryJoinAt, h0, hev, hlt] at hok
    · rintro ⟨hble, -, -, -⟩
      rw [hlt_iff.mpr hble] at hlt
      cases hlt
  | false =>
    cases hgt : now.gtMidnight ev.end_date with
    | true =>
      constructor
      · rintro ⟨pid, hok⟩
        simp [tryJoin, tryJoinAt, h0, hev, hlt, hgt] at hok
      · rintro ⟨-, hgt', -, -⟩
        simp at hgt'
    | false =>
      cases hp : s.participants.find?
          (fun p => p.event_id == eid && p.user_id == uid) with
      | some q =>
        constructor
        · rintro ⟨pid, hok⟩
          simp [tryJoin, tryJoinAt, h0, hev, hlt, hgt, hp] at hok
        · rintro ⟨-, -, hnone, -⟩
          simp at hnone
      | none =>
        have hanyf := any_eq_false_of_find?_eq_none hp
        by_cases hgen : ev.gender_restriction = "both" ∨
            ev.gender_restriction = u.gender
        · constructor
          · intro _
            exact ⟨hlt_iff.mp hlt, rfl, rfl, hgen⟩
          · intro _
            refine ⟨s.nextId, ?_⟩
            rcases hgen with hg | hg <;>
              simp [tryJoin, tryJoinAt, h0, hev, hlt, hgt, hp, hu, hg,
                insertParticipant, hanyf]
        · push_neg at hgen
          constructor
          · rintro ⟨pid, hok⟩
            simp [tryJoin, tryJoinAt, h0, hev, hlt, hgt, hp, hu,
              hgen.1, hgen.2] at hok
          · rintro ⟨-, -, -, hg⟩
            rcases hg with hg | hg
            · exact absurd hg hgen.1
            · exact absurd hg hgen.2

/-- C1 witness: the amended characterization applied at a concrete store,
event, user and instant. -/
theorem c1_join_window_amended_witness :
    ((∃ pid, (tryJoin exStore 1 7 midJune).1 = .ok pid) ↔
      (exEvent.start_date.ble midJune.date = true ∧
        midJune.gtMidnight exEvent.end_date = false ∧
        exStore.participants.find?
          (fun p => p.event_id == 1 && p.user_id == 7) = none ∧
        (exEvent.gender_restriction = "both" ∨
          exEvent.gender_restriction = exUserA.gender))) ∧
    (midJune.ltMidnight exEvent.start_date = true →
      (tryJoin exStore 1 7 midJune).1 = .err 400 "Event has not started yet") ∧
    (midJune.ltMidnight exEvent.start_date = false →
      midJune.gtMidnight exEvent.end_date = true →
      (tryJoin exStore 1 7 midJune).1 = .err 400 "Event has already ended") :=
  c1_join_window_amended exStore 1 7 midJune exEvent exUserA (by decide)
    (by decide) (by decide)

/-- C5 (amended): a successful join inserts exactly one row for `(E, U)`;
calling again sequentially leaves the store unchanged and reports the 400
already-joined error, so two rows are never created.  When the pre-check
races with a concurrent committed join, the store's unique constraint stops
the second insert, but the handler answers with the generic 500
"Failed to join event" rather than a distinguishable duplicate error. -/
theorem c5_double_join_amended (s s' : Store) (eid uid : Nat) (now : PhInstant)
    (pid : Nat)
    (h1 : tryJoin s eid uid now = (.ok pid, s')) :
    tryJoin s' eid uid now =
      (.err 400 "You have already joined this event", s') ∧
    (s'.participants.filter
      (fun p => p.event_id == eid && p.user_id == uid)).length = 1 ∧
    (s.participants.filter
      (fun p => p.event_id == eid && p.user_id == uid)).length = 0 ∧
    (∀ sIns : Store,
      sIns.participants.any (fun p => p.event_id == eid && p.user_id == uid) = true →
      (tryJoinAt s sIns eid uid now).1 = .err 500 "Failed to join event") := by
  unfold tryJoin tryJoinAt at h1
  by_cases h0 : (eid : Int) ≤ 0
  · rw [if_pos h0] at h1
    simp at h1
  · rw [if_neg h0] at h1
    simp only [Int.toNat_natCast] at h1
    cases hev : s.events.find? (fun e => e.id == eid) with
    | none => rw [hev] at h1; simp at h1
    | some ev =>
      rw [hev] at h1
      cases hlt : now.ltMidnight ev.start_date with
      | true => simp only [hlt, if_true] at h1; simp at h1
      | false =>
        simp only [hlt, Bool.false_eq_true, if_false] at h1
        cases hgt : now.gtMidnight ev.end_date with
        | true => simp only [hgt, if_true] at h1; simp at h1
        | false =>
          simp only [hgt, Bool.false_eq_true, if_false] at h1
          cases hp : s.participants.find?
              (fun p => p.event_id == eid && p.user_id == uid) with
          | some q => rw [hp] at h1; simp at h1
          | none =>
            rw [hp] at h1
            cases hu : s.users.find? (fun w => w.id == uid) with
            | none => rw [hu] at h1; simp at h1
            | some u =>
              rw [hu] at h1
              cases hgen : (ev.gender_restriction != "both" &&
                  ev.gender_restriction != u.gender) with
              | true => simp only [hgen, if_true] at h1; simp at h1
              | false =>
                simp only [hgen, Bool.false_eq_true, if_false] at h1
                have hanyf := any_eq_false_of_find?_eq_none hp
                simp only [insertParticipant, hanyf, Bool.false_eq_true,
                  if_false] at h1
                have hfilnil : s.participants.filter
                    (fun p => p.event_id == eid && p.user_id == uid) = [] :=
                  List.filter_eq_nil_iff.mpr (List.find?_eq_none.mp hp)
                rw [Prod.mk.injEq] at h1
                obtain ⟨hpid, hs'⟩ := h1
                subst hs'
                refine ⟨?_, ?_, ?_, ?_⟩
                · unfold tryJoin tryJoinAt
                  rw [if_neg h0]
                  simp only [Int.toNat_natCast]
                  rw [hev]
                  simp only [hlt, hgt, Bool.false_eq_true, if_false]
                  rw [List.find?_append, hp]
                  simp
                · simp [List.filter_append, hfilnil]
                · simp [hfilnil]
                · intro sIns hany
                  unfold tryJoinAt
                  rw [if_neg h0]
                  simp only [Int.toNat_natCast]
                  rw [hev]
                  simp only [hlt, hgt, Bool.false_eq_true, if_false]
                  rw [hp, hu]
                  simp only [hgen, Bool.false_eq_true, if_false]
                  simp [insertParticipant, hany]

/-- The store after the user joins the June event. -/
def exStoreAfter : Store :=
  { exStore with participants := [⟨10, 1, 7⟩], nextId := 11 }

/-- C5 witness: the amended double-join behavior at a concrete store, with a
concrete lost race answered by the generic 500. -/
theorem c5_double_join_amended_witness :
    tryJoin exStoreAfter 1 7 midJune =
      (.err 400 "You have already joined this event", exStoreAfter) ∧
    (tryJoinAt exStore exStoreJoined 1 7 midJune).1 =
      .err 500 "Failed to join event" :=
  ⟨(c5_double_join_amended exStore exStoreAfter 1 7 midJune 10 (by decide)).1,
   (c5_double_join_amended exStore exStoreAfter 1 7 midJune 10
      (by decide)).2.2.2 exStoreJoined (by decide)⟩

/-- C9 (amended): every entry-creation and entry-update path stores
`km_run = numOrZero km` and `hours = numOrZero hours` — missing or
non-numeric inputs become 0, numeric values (including negative ones) pass
through unchanged — so `km_run ≥ 0 ∧ hours ≥ 0` is preserved exactly under
the extra assumption that the numeric inputs provided are non-negative. -/
theorem c9_nonneg_amended (s : Store) (uid : Nat) (d : PDate)
    (km hours pace : Option ℚ)
    (hkm : ∀ q, km = some q → 0 ≤ q) (hh : ∀ q, hours = some q → 0 ≤ q)
    (hall : ∀ e ∈ s.entries, 0 ≤ e.km_run ∧ 0 ≤ e.hours) :
    (0 ≤ numOrZero km ∧ 0 ≤ numOrZero hours) ∧
    (∀ e ∈ (insertEntryWithUpload s uid d km hours pace).2.entries,
      0 ≤ e.km_run ∧ 0 ≤ e.hours) ∧
    (∀ (entryIdRaw : Int),
      ∀ e ∈ (putEntry s uid entryIdRaw d km hours pace).2.entries,
        0 ≤ e.km_run ∧ 0 ≤ e.hours) ∧
    (∀ (entryIdRaw : Int),
      ∀ e ∈ (adminPutEntry s entryIdRaw d km hours pace).2.entries,
        0 ≤ e.km_run ∧ 0 ≤ e.hours) := by
  have hnk : 0 ≤ numOrZero km := by
    cases hq : km with
    | none => simp [numOrZero]
    | some q => simpa [numOrZero] using hkm q hq
  have hnh : 0 ≤ numOrZero hours := by
    cases hq : hours with
    | none => simp [numOrZero]
    | some q => simpa [numOrZero] using hh q hq
  refine ⟨⟨hnk, hnh⟩, ?_, ?_, ?_⟩
  · intro e he
    simp only [insertEntryWithUpload, List.mem_append, List.mem_singleton] at he
    rcases he with he | he
    · exact hall e he
    · subst he
      exact ⟨hnk, hnh⟩
  · intro entryIdRaw e he
    unfold putEntry at he
    split at he
    · exact hall e he
    · simp only [] at he
      split at he
      · exact hall e he
      · rcases List.mem_map.mp he with ⟨a, ha, hfa⟩
        split at hfa
        · subst hfa
          exact ⟨hnk, hnh⟩
        · subst hfa
          exact hall a ha
  · intro entryIdRaw e he
    unfold adminPutEntry at he
    split at he
    · exact hall e he
    · simp only [] at he
      split at he
      · exact hall e he
      · rcases List.mem_map.mp he with ⟨a, ha, hfa⟩
        split at hfa
        · subst hfa
          exact ⟨hnk, hnh⟩
        · subst hfa
          exact hall a ha

/-- C9 witness: the amended preservation applied at a concrete store and
non-negative numeric inputs. -/
theorem c9_nonneg_amended_witness :
    (0 ≤ numOrZero (some (5 : ℚ)) ∧ 0 ≤ numOrZero (some (2 : ℚ))) ∧
    (∀ e ∈ (insertEntryWithUpload exStore 7 ⟨2024, 6, 10⟩ (some 5) (some 2)
        none).2.entries, 0 ≤ e.km_run ∧ 0 ≤ e.hours) ∧
    (∀ (entryIdRaw : Int),
      ∀ e ∈ (putEntry exStore 7 entryIdRaw ⟨2024, 6, 10⟩ (some 5) (some 2)
          none).2.entries, 0 ≤ e.km_run ∧ 0 ≤ e.hours) ∧
    (∀ (entryIdRaw : Int),
      ∀ e ∈ (adminPutEntry exStore entryIdRaw ⟨2024, 6, 10⟩ (some 5) (some 2)
          none).2.entries, 0 ≤ e.km_run ∧ 0 ≤ e.hours) :=
  c9_nonneg_amended exStore 7 ⟨2024, 6, 10⟩ (some 5) (some 2) none
    (fun q hq => by cases hq; decide)
    (fun q hq => by cases hq; decide)
    (fun e he => by cases he)

/-- C3: an entry dated exactly the month's first day is in the month listing
and in the top-10 aggregation's entry set; an entry dated exactly the first
day of the next month is in neither (half-open window); an entry dated
exactly the event's `end_date` is in the event ranking's qualifying set
(closed window) — the two boundary behaviors differ. -/
theorem c3_window_boundaries (s : Store) (uid y m : Nat) (e1 e2 e3 : Entry)
    (ev : Event)
    (_hm1 : 1 ≤ m) (_hm2 : m ≤ 12)
    (h1 : e1 ∈ s.entries) (h1u : e1.user_id = uid)
    (h1d : e1.entry_date = ⟨y, m, 1⟩)
    (h2d : e2.entry_date = nextMonthStart y m)
    (h3 : e3 ∈ s.entries) (h3u : e3.user_id = uid)
    (h3d : e3.entry_date = ev.end_date)
    (hse : ev.start_date.ble ev.end_date = true) :
    e1 ∈ listEntries s uid y m ∧
    e1 ∈ monthQualifying s uid y m ∧
    e2 ∉ listEntries s uid y m ∧
    e2 ∉ monthQualifying s uid y m ∧
    e3 ∈ eventQualifying s ev uid := by
  have hwin1 : inMonthWindow y m (⟨y, m, 1⟩ : PDate) = true := by
    by_cases h12 : m = 12 <;>
      simp [inMonthWindow, monthWindow, nextMonthStart, PDate.ble, PDate.blt, h12]
  have hwin2 : inMonthWindow y m (nextMonthStart y m) = false := by
    simp only [inMonthWindow, monthWindow, Bool.and_eq_false_iff]
    right
    exact pdBlt_irrefl (nextMonthStart y m)
  have hmem1 : (e1.user_id == uid && inMonthWindow y m e1.entry_date) = true := by
    rw [h1u, h1d, hwin1]
    simp
  refine ⟨List.mem_filter.mpr ⟨h1, hmem1⟩, List.mem_filter.mpr ⟨h1, hmem1⟩,
    ?_, ?_, ?_⟩
  · intro hmem
    have := (List.mem_filter.mp hmem).2
    rw [h2d, hwin2] at this
    simp at this
  · intro hmem
    have := (List.mem_filter.mp hmem).2
    rw [h2d, hwin2] at this
    simp at this
  · refine List.mem_filter.mpr ⟨h3, ?_⟩
    rw [h3u, h3d]
    simp [hse, pdBle_refl]

/-- Entries used by the C3 witness. -/
def c3e1 : Entry :=
  { id := 1, user_id := 7, entry_date := ⟨2024, 6, 1⟩, km_run := 3, hours := 1,
    pace := none }

def c3e2 : Entry :=
  { id := 2, user_id := 7, entry_date := ⟨2024, 7, 1⟩, km_run := 4, hours := 1,
    pace := none }

def c3e3 : Entry :=
  { id := 3, user_id := 7, entry_date := ⟨2024, 6, 30⟩, km_run := 5, hours := 1,
    pace := none }

def c3Store : Store :=
  { exStore with entries := [c3e1, c3e2, c3e3] }

/-- C3 witness: the boundary behaviors at a concrete store and month. -/
theorem c3_window_boundaries_witness :
    c3e1 ∈ listEntries c3Store 7 2024 6 ∧
    c3e1 ∈ monthQualifying c3Store 7 2024 6 ∧
    c3e2 ∉ listEntries c3Store 7 2024 6 ∧
    c3e2 ∉ monthQualifying c3Store 7 2024 6 ∧
    c3e3 ∈ eventQualifying c3Store exEvent 7 :=
  c3_window_boundaries c3Store 7 2024 6 c3e1 c3e2 c3e3 exEvent (by decide)
    (by decide) (by decide) (by decide) (by decide) (by decide) (by decide)
    (by decide) (by decide) (by decide)

/-- C10: an event of the listing that the requesting user has not joined is
reported with `user_rank: null` and `total_participants: 0` no matter how
many participant rows the event has; the participant count is computed (as
the standing ranking's length) only for joined events. -/
theorem c10_nonjoined_item (s : Store) (uid : Nat) (today : PDate) (ev : Event)
    (hev : ev ∈ s.events) (hend : today.ble ev.end_date = true)
    (hnj : hasJoinedB s ev uid = false) :
    notJoinedItem ev ∈ listEvents s uid today ∧
    (notJoinedItem ev).user_rank = none ∧
    (notJoinedItem ev).total_participants = 0 ∧
    (∀ (ev' : Event) (uid' : Nat) (rows : List StandRow),
      (joinedItem ev' uid' (.ok rows)).total_participants = rows.length) := by
  refine ⟨?_, rfl, rfl, fun ev' uid' rows => rfl⟩
  unfold listEvents
  refine List.mem_map.mpr ⟨ev, List.mem_filter.mpr ⟨hev, hend⟩, ?_⟩
  rw [hnj]
  simp

/-- Event and store used by the C10 witness: three other users have joined,
but the requesting user has not. -/
def c10Store : Store :=
  { exStore with
    users := [exUserA, exUserB, { id := 9, email := "c@x.com", gender := "female" },
      { id := 11, email := "d@x.com", gender := "male" }],
    participants := [⟨1, 1, 8⟩, ⟨2, 1, 9⟩, ⟨3, 1, 11⟩], nextId := 40 }

/-- C10 witness: the non-joined listing item at a concrete store with three
participant rows for the event. -/
theorem c10_nonjoined_item_witness :
    notJoinedItem exEvent ∈ listEvents c10Store 7 ⟨2024, 6, 15⟩ ∧
    (notJoinedItem exEvent).user_rank = none ∧
    (notJoinedItem exEvent).total_participants = 0 ∧
    (∀ (ev' : Event) (uid' : Nat) (rows : List StandRow),
      (joinedItem ev' uid' (.ok rows)).total_participants = rows.length) :=
  c10_nonjoined_item c10Store 7 ⟨2024, 6, 15⟩ exEvent (by decide) (by decide)
    (by decide)

theorem strLeB_total : ∀ a b : List Char, strLeB a b = true ∨ strLeB b a = true
  | [], _ => Or.inl rfl
  | _ :: _, [] => Or.inr rfl
  | c :: cs, d :: ds => by
    rcases Nat.lt_trichotomy c.toNat d.toNat with h | h | h
    · left
      simp [strLeB, h]
    · rcases strLeB_total cs ds with ih | ih
      · left
        simp [strLeB, h, ih]
      · right
        simp [strLeB, h.symm, ih]
    · right
      simp [strLeB, h]

theorem strLeB_trans : ∀ a b c : List Char,
    strLeB a b = true → strLeB b c = true → strLeB a c = true
  | [], _, _, _, _ => rfl
  | _ :: _, [], _, h, _ => by simp [strLeB] at h
  | _ :: _, _ :: _, [], _, h => by simp [strLeB] at h
  | a :: as, b :: bs, c :: cs, h1, h2 => by
    simp only [strLeB, Bool.or_eq_true, Bool.and_eq_true, decide_eq_true_eq]
      at h1 h2 ⊢
    rcases h1 with h1 | ⟨h1e, h1r⟩
    · rcases h2 with h2 | ⟨h2e, h2r⟩
      · exact Or.inl (h1.trans h2)
      · exact Or.inl (h2e ▸ h1)
    · rcases h2 with h2 | ⟨h2e, h2r⟩
      · exact Or.inl (h1e ▸ h2)
      · exact Or.inr ⟨h1e.trans h2e, strLeB_trans as bs cs h1r h2r⟩

instance : IsTotal RankRow rankRowLe :=
  ⟨fun a b => by
    rcases lt_trichotomy a.total_km b.total_km with h | h | h
    · exact Or.inr (Or.inl h)
    · rcases strLeB_total a.email.data b.email.data with he | he
      · exact Or.inl (Or.inr ⟨h, he⟩)
      · exact Or.inr (Or.inr ⟨h.symm, he⟩)
    · exact Or.inl (Or.inl h)⟩

instance : IsTrans RankRow rankRowLe :=
  ⟨fun a b c hab hbc => by
    rcases hab with hab | ⟨hab, habe⟩
    · rcases hbc with hbc | ⟨hbc, _⟩
      · exact Or.inl (hbc.trans hab)
      · exact Or.inl (hbc ▸ hab)
    · rcases hbc with hbc | ⟨hbc, hbce⟩
      · exact Or.inl (hab ▸ hbc)
      · exact Or.inr ⟨hab.trans hbc, strLeB_trans _ _ _ habe hbce⟩⟩

instance : IsTotal StandRow standRowLe :=
  ⟨fun a b => by
    rcases lt_trichotomy a.total_km b.total_km with h | h | h
    · exact Or.inr (Or.inl h)
    · rcases Nat.le_total a.id b.id with he | he
      · exact Or.inl (Or.inr ⟨h, he⟩)
      · exact Or.inr (Or.inr ⟨h.symm, he⟩)
    · exact Or.inl (Or.inl h)⟩

instance : IsTrans StandRow standRowLe :=
  ⟨fun a b c hab hbc => by
    rcases hab with hab | ⟨hab, habi⟩
    · rcases hbc with hbc | ⟨hbc, _⟩
      · exact Or.inl (hbc.trans hab)
      · exact Or.inl (hbc ▸ hab)
    · rcases hbc with hbc | ⟨hbc, hbci⟩
      · exact Or.inl (hab ▸ hbc)
      · exact Or.inr ⟨hab.trans hbc, habi.trans hbci⟩⟩

/-- Event and store of the C4 tie-break scenario: two participants with the
identical total 12.5 km; the participant row of `b@x.com` comes first in the
store so the order of the result is decided by the sort alone. -/
def c4Event : Event :=
  { id := 3, name := "Tie Run", start_date := ⟨2024, 6, 1⟩, end_date := ⟨2024, 6, 30⟩,
    category := "advanced", gender_restriction := "both", km_goal := 100,
    is_ended := false }

def c4Store : Store :=
  { users := [exUserA, exUserB], events := [c4Event],
    participants := [⟨1, 3, 8⟩, ⟨2, 3, 7⟩], closedDates := [],
    entries :=
      [{ id := 1, user_id := 8, entry_date := ⟨2024, 6, 10⟩, km_run := 25/2,
         hours := 1, pace := none },
       { id := 2, user_id := 7, entry_date := ⟨2024, 6, 11⟩, km_run := 25/2,
         hours := 1, pace := none }],
    uploads := [], nextId := 30 }

theorem c4_rankRows_eval : rankRows c4Store c4Event =
    [{ id := 8, email := "b@x.com", total_km := 25/2, entry_count := 1 },
     { id := 7, email := "a@x.com", total_km := 25/2, entry_count := 1 }] := by
  simp +decide [rankRows, eventQualifying, c4Store, c4Event, exUserA, exUserB,
    PDate.ble, List.filterMap, List.find?, List.filter, List.sum_cons,
    List.sum_nil]

theorem c4_not_le_ba : ¬ rankRowLe
    { id := 8, email := "b@x.com", total_km := 25/2, entry_count := 1 }
    { id := 7, email := "a@x.com", total_km := 25/2, entry_count := 1 } := by
  rintro (h | ⟨-, h⟩)
  · exact absurd h (lt_irrefl _)
  · exact absurd h (by decide)

theorem c4_ranking_eval : computeRanking c4Store c4Event =
    [{ id := 7, email := "a@x.com", total_km := 25/2, entry_count := 1 },
     { id := 8, email := "b@x.com", total_km := 25/2, entry_count := 1 }] := by
  unfold computeRanking
  rw [c4_rankRows_eval]
  simp only [List.insertionSort, List.orderedInsert]
  rw [if_neg c4_not_le_ba]

/-- C4: the event ranking is a pure function of the store (calling it twice
yields the same list definitionally), its output is always sorted by
`total_km DESC, email ASC`, and in the concrete two-way tie at 12.5 km the
participant whose email sorts first alphabetically is ranked ahead. -/
theorem c4_ranking_deterministic_tiebreak :
    (∀ (s : Store) (ev : Event),
      List.Sorted rankRowLe (computeRanking s ev)) ∧
    (computeRanking c4Store c4Event).map RankRow.email =
      ["a@x.com", "b@x.com"] ∧
    (computeRanking c4Store c4Event).map RankRow.total_km = [25/2, 25/2] := by
  refine ⟨fun s ev => List.sorted_insertionSort rankRowLe (rankRows s ev),
    ?_, ?_⟩ <;> simp [c4_ranking_eval]

theorem eventEntrySubmit_ok (t : Store) (eid uid : Nat) (d : PDate)
    (km hours pace : Option ℚ) (p : Participant) (ev : Event)
    (hpos : 0 < eid)
    (hp : t.participants.find?
      (fun q => q.event_id == eid && q.user_id == uid) = some p)
    (hev : t.events.find? (fun e => e.id == eid) = some ev)
    (hdlo : d.blt ev.start_date = false) (hdhi : ev.end_date.blt d = false)
    (hopen : t.closedDates.find?
      (fun c => c.event_id == eid && c.closed_date == d) = none) :
    (eventEntrySubmit t eid uid (some d) true km hours pace).1 = .ok t.nextId := by
  have h0 : ¬((eid : Int) ≤ 0) := by omega
  simp [eventEntrySubmit, h0, hp, hev, hdlo, hdhi, hopen, insertEntryWithUpload]

theorem eventEntrySubmit_closed (t : Store) (eid uid : Nat) (d : PDate)
    (km hours pace : Option ℚ) (p : Participant) (ev : Event) (c : ClosedDate)
    (hpos : 0 < eid)
    (hp : t.participants.find?
      (fun q => q.event_id == eid && q.user_id == uid) = some p)
    (hev : t.events.find? (fun e => e.id == eid) = some ev)
    (hdlo : d.blt ev.start_date = false) (hdhi : ev.end_date.blt d = false)
    (hc : t.closedDates.find?
      (fun c' => c'.event_id == eid && c'.closed_date == d) = some c) :
    (eventEntrySubmit t eid uid (some d) true km hours pace).1 =
      .err 400 "Entry submission is closed for this date" := by
  have h0 : ¬((eid : Int) ≤ 0) := by omega
  simp [eventEntrySubmit, h0, hp, hev, hdlo, hdhi, hc]

/-- C7: with the caller a participant and the date inside the event period,
event entry submission succeeds while the date is not closed, is rejected
with the date-closed error after the admin closes the date, and succeeds
again after the admin reopens it by deleting the `EventClosedDate` row; a
non-participant is rejected with 403 and a date outside the event period
with the period error — the three checks all run against the store at
submission time. -/
theorem c7_closed_date_cycle (s : Store) (eid uid adminId : Nat) (d : PDate)
    (km hours pace : Option ℚ) (p : Participant) (ev : Event)
    (hpos : 0 < eid)
    (hp : s.participants.find?
      (fun q => q.event_id == eid && q.user_id == uid) = some p)
    (hev : s.events.find? (fun e => e.id == eid) = some ev)
    (hdlo : d.blt ev.start_date = false) (hdhi : ev.end_date.blt d = false)
    (hopen : s.closedDates.find?
      (fun c => c.event_id == eid && c.closed_date == d) = none) :
    (eventEntrySubmit s eid uid (some d) true km hours pace).1 = .ok s.nextId ∧
    (closeDate s eid adminId (some d)).1 = .ok s.nextId ∧
    (eventEntrySubmit (closeDate s eid adminId (some d)).2 eid uid (some d) true
      km hours pace).1 = .err 400 "Entry submission is closed for this date" ∧
    (openDate (closeDate s eid adminId (some d)).2 eid (some d)).1 = .ok () ∧
    (eventEntrySubmit
      (openDate (closeDate s eid adminId (some d)).2 eid (some d)).2
      eid uid (some d) true km hours pace).1 = .ok (s.nextId + 1) ∧
    (∀ uid2 : Nat, s.participants.find?
        (fun q => q.event_id == eid && q.user_id == uid2) = none →
      (eventEntrySubmit s eid uid2 (some d) true km hours pace).1 =
        .err 403 "You are not a participant in this event") ∧
    (∀ d2 : PDate, (d2.blt ev.start_date || ev.end_date.blt d2) = true →
      (eventEntrySubmit s eid uid (some d2) true km hours pace).1 =
        .err 400 "Entry date must be within event period") := by
  have h0 : ¬((eid : Int) ≤ 0) := by omega
  have hanyf := any_eq_false_of_find?_eq_none hopen
  have hallnot := List.find?_eq_none.mp hopen
  have hfilter : s.closedDates.filter
      (fun c => !(c.event_id == eid && c.closed_date == d)) = s.closedDates :=
    List.filter_eq_self.mpr (fun c hc => by
      cases hpc : (c.event_id == eid && c.closed_date == d) with
      | true => exact absurd hpc (hallnot c hc)
      | false => simp [hpc])
  have hcd : closeDate s eid adminId (some d) =
      (.ok s.nextId,
        { s with
          closedDates := s.closedDates ++ [⟨s.nextId, eid, d, adminId⟩],
          nextId := s.nextId + 1 }) := by
    simp [closeDate, h0, hev, hdlo, hdhi, hanyf]
  have hfound : (s.closedDates ++
      [(⟨s.nextId, eid, d, adminId⟩ : ClosedDate)]).find?
        (fun c => c.event_id == eid && c.closed_date == d) =
      some ⟨s.nextId, eid, d, adminId⟩ := by
    rw [List.find?_append, hopen]
    simp [List.find?]
  have hsingle : ([(⟨s.nextId, eid, d, adminId⟩ : ClosedDate)].filter
      (fun c => !(c.event_id == eid && c.closed_date == d))) = [] := by
    simp
  have hne : (s.closedDates.length == s.closedDates.length + 1) = false := by
    rw [Bool.eq_false_iff]
    intro hEq
    exact absurd (beq_iff_eq.mp hEq) (by omega)
  have hrem : (s.closedDates ++
      [(⟨s.nextId, eid, d, adminId⟩ : ClosedDate)]).filter
        (fun c => !(c.event_id == eid && c.closed_date == d)) = s.closedDates := by
    rw [List.filter_append, hfilter, hsingle, List.append_nil]
  have hod : openDate (closeDate s eid adminId (some d)).2 eid (some d) =
      (.ok (), { s with nextId := s.nextId + 1 }) := by
    rw [hcd]
    unfold openDate
    rw [if_neg h0]
    simp only [Int.toNat_natCast]
    rw [hrem, List.length_append, List.length_singleton, hne]
    simp
  refine ⟨eventEntrySubmit_ok s eid uid d km hours pace p ev hpos hp hev hdlo
    hdhi hopen, ?_, ?_, ?_, ?_, ?_, ?_⟩
  · rw [hcd]
  · rw [hcd]
    exact eventEntrySubmit_closed _ eid uid d km hours pace p ev
      ⟨s.nextId, eid, d, adminId⟩ hpos hp hev hdlo hdhi hfound
  · rw [hod]
  · rw [hod]
    exact eventEntrySubmit_ok _ eid uid d km hours pace p ev hpos hp hev hdlo
      hdhi hopen
  · intro uid2 hnp2
    simp [eventEntrySubmit, h0, hnp2]
  · intro d2 hout
    simp [eventEntrySubmit, h0, hp, hev, hout]

/-- Store of the C7 witness: the user participates in the June event. -/
def c7Store : Store :=
  { exStore with participants := [⟨5, 1, 7⟩], nextId := 50 }

/-- C7 witness: the closed-date cycle at a concrete store, date and event. -/
theorem c7_closed_date_cycle_witness :
    (eventEntrySubmit c7Store 1 7 (some ⟨2024, 6, 20⟩) true (some 5) (some 1)
      none).1 = .ok c7Store.nextId ∧
    (closeDate c7Store 1 2 (some ⟨2024, 6, 20⟩)).1 = .ok c7Store.nextId ∧
    (eventEntrySubmit (closeDate c7Store 1 2 (some ⟨2024, 6, 20⟩)).2 1 7
      (some ⟨2024, 6, 20⟩) true (some 5) (some 1) none).1 =
        .err 400 "Entry submission is closed for this date" ∧
    (openDate (closeDate c7Store 1 2 (some ⟨2024, 6, 20⟩)).2 1
      (some ⟨2024, 6, 20⟩)).1 = .ok () ∧
    (eventEntrySubmit
      (openDate (closeDate c7Store 1 2 (some ⟨2024, 6, 20⟩)).2 1
        (some ⟨2024, 6, 20⟩)).2 1 7 (some ⟨2024, 6, 20⟩) true (some 5) (some 1)
      none).1 = .ok (c7Store.nextId + 1) ∧
    (∀ uid2 : Nat, c7Store.participants.find?
        (fun q => q.event_id == 1 && q.user_id == uid2) = none →
      (eventEntrySubmit c7Store 1 uid2 (some ⟨2024, 6, 20⟩) true (some 5)
        (some 1) none).1 = .err 403 "You are not a participant in this event") ∧
    (∀ d2 : PDate, (d2.blt exEvent.start_date || exEvent.end_date.blt d2) = true →
      (eventEntrySubmit c7Store 1 7 (some d2) true (some 5) (some 1) none).1 =
        .err 400 "Entry date must be within event period") :=
  c7_closed_date_cycle c7Store 1 7 2 ⟨2024, 6, 20⟩ (some 5) (some 1) none
    ⟨5, 1, 7⟩ exEvent (by decide) (by decide) (by decide) (by decide)
    (by decide) (by decide)

theorem length_filterMap_of_isSome {α β : Type} (f : α → Option β) :
    ∀ l : List α, (∀ a ∈ l, (f a).isSome = true) →
      (l.filterMap f).length = l.length
  | [], _ => rfl
  | a :: l, h => by
    have ha := h a (List.mem_cons_self a l)
    cases hfa : f a with
    | none =>
      rw [hfa] at ha
      simp at ha
    | some b =>
      simp [List.filterMap_cons, hfa,
        length_filterMap_of_isSome f l (fun x hx => h x (List.mem_cons_of_mem a hx))]

theorem standRanking_findIdx : ∀ (l : List StandRow) (i : Nat) (h : i < l.length),
    (l.map StandRow.id).Nodup →
    l.findIdx (fun r => r.id == (l.get ⟨i, h⟩).id) = i
  | [], i, h, _ => by simp at h
  | a :: l, 0, h, _ => by simp [List.findIdx_cons]
  | a :: l, i + 1, h, hnd => by
    have hi : i < l.length := Nat.lt_of_succ_lt_succ h
    have hget : ((a :: l).get ⟨i + 1, h⟩) = l.get ⟨i, hi⟩ := rfl
    rw [hget, List.findIdx_cons]
    rw [List.map_cons] at hnd
    have hmem : (l.get ⟨i, hi⟩).id ∈ l.map StandRow.id :=
      List.mem_map_of_mem StandRow.id (l.get_mem i hi)
    have hne2 : (a.id == (l.get ⟨i, hi⟩).id) = false := by
      rw [beq_eq_false_iff_ne]
      intro hEq
      exact (List.nodup_cons.mp hnd).1 (hEq ▸ hmem)
    rw [hne2, Bool.cond_false,
      standRanking_findIdx l i hi (List.nodup_cons.mp hnd).2]

/-- C8: every participant of the event appears in the event ranking — the
ranking's length equals the number of `EventParticipant` rows for the event,
independent of the entries — a participant with zero qualifying entries gets
a row with `totalKm = 0` and `entryCount = 0`, and each position of the
standing ranking receives its 1-based positional rank with no
rank-collapsing. -/
theorem c8_participants_ranked (s : Store) (ev : Event)
    (hres : ∀ p ∈ s.participants.filter (fun q => q.event_id == ev.id),
      (s.users.find? (fun u => u.id == p.user_id)).isSome = true) :
    (computeRanking s ev).length =
      (s.participants.filter (fun q => q.event_id == ev.id)).length ∧
    (computeStandingRanking s ev).length =
      (s.participants.filter (fun q => q.event_id == ev.id)).length ∧
    (∀ p ∈ s.participants.filter (fun q => q.event_id == ev.id),
      ∀ u : User, s.users.find? (fun w => w.id == p.user_id) = some u →
        eventQualifying s ev u.id = [] →
          ∃ r ∈ computeRanking s ev,
            r.id = u.id ∧ r.total_km = 0 ∧ r.entry_count = 0) ∧
    (∀ (i : Nat) (h : i < (computeStandingRanking s ev).length),
      ((computeStandingRanking s ev).map StandRow.id).Nodup →
        userRankOf (computeStandingRanking s ev)
          ((computeStandingRanking s ev).get ⟨i, h⟩).id = some (i + 1)) := by
  have hlen1 : (rankRows s ev).length =
      (s.participants.filter (fun q => q.event_id == ev.id)).length :=
    length_filterMap_of_isSome _ _ (fun p hp => by
      cases hfind : s.users.find? (fun u => u.id == p.user_id) with
      | none => exact absurd (hres p hp) (by rw [hfind]; simp)
      | some u => simp)
  have hlen2 : (standRows s ev).length =
      (s.participants.filter (fun q => q.event_id == ev.id)).length :=
    length_filterMap_of_isSome _ _ (fun p hp => by
      cases hfind : s.users.find? (fun u => u.id == p.user_id) with
      | none => exact absurd (hres p hp) (by rw [hfind]; simp)
      | some u => simp)
  refine ⟨by simpa [computeRanking] using hlen1,
    by simpa [computeStandingRanking] using hlen2, ?_, ?_⟩
  · intro p hp u hu hq
    refine ⟨{ id := u.id, email := u.email, total_km := 0, entry_count := 0 },
      ?_, rfl, rfl, rfl⟩
    have hmem : ({ id := u.id, email := u.email, total_km := 0,
                   entry_count := 0 } : RankRow) ∈ rankRows s ev := by
      refine List.mem_filterMap.mpr ⟨p, hp, ?_⟩
      rw [hu]
      simp [hq]
    simpa [computeRanking] using hmem
  · intro i h hnd
    simp only [userRankOf]
    rw [standRanking_findIdx (computeStandingRanking s ev) i h hnd, if_pos h]

/-- Event and store of the C8 witness: two participants, neither with any
entry. -/
def c8Event : Event :=
  { id := 4, name := "Empty Run", start_date := ⟨2024, 6, 1⟩,
    end_date := ⟨2024, 6, 30⟩, category := "advanced",
    gender_restriction := "both", km_goal := 10, is_ended := false }

def c8Store : Store :=
  { users := [exUserA, exUserB], events := [c8Event],
    participants := [⟨1, 4, 8⟩, ⟨2, 4, 7⟩], closedDates := [], entries := [],
    uploads := [], nextId := 60 }

/-- C8 witness: the ranking shape at a concrete store with two zero-entry
participants. -/
theorem c8_participants_ranked_witness :
    (computeRanking c8Store c8Event).length =
      (c8Store.participants.filter (fun q => q.event_id == c8Event.id)).length ∧
    (computeStandingRanking c8Store c8Event).length =
      (c8Store.participants.filter (fun q => q.event_id == c8Event.id)).length ∧
    (∀ p ∈ c8Store.participants.filter (fun q => q.event_id == c8Event.id),
      ∀ u : User, c8Store.users.find? (fun w => w.id == p.user_id) = some u →
        eventQualifying c8Store c8Event u.id = [] →
          ∃ r ∈ computeRanking c8Store c8Event,
            r.id = u.id ∧ r.total_km = 0 ∧ r.entry_count = 0) ∧
    (∀ (i : Nat) (h : i < (computeStandingRanking c8Store c8Event).length),
      ((computeStandingRanking c8Store c8Event).map StandRow.id).Nodup →
        userRankOf (computeStandingRanking c8Store c8Event)
          ((computeStandingRanking c8Store c8Event).get ⟨i, h⟩).id =
            some (i + 1)) :=
  c8_participants_ranked c8Store c8Event (by decide)

end LsrTracker
